import Mathlib

/-!
Shallow embedding of the BeyondChats persona pipeline
(`scrapper.py`, `db.py`, `profiler.py`, `Output.py`, `report.py`),
with theorems settling the frozen claims about its specification.

External capabilities (the OpenAI embedding / chat-completion calls and the
`json` library's parser) are abstracted as function parameters; everything
else is translated directly from the Python source.
-/

set_option autoImplicit false
set_option maxRecDepth 8192

namespace BeyondChats

/-! ### A small JSON value model

Used to embed the pydantic schema validation (`model_validate_json`,
`UserPersona(**persona_data)`) and serialization (`model_dump_json`) that
`profiler.py` and `report.py` perform on persona objects. -/

/-- Python `str.strip()`: drop leading and trailing whitespace. Written
over the character list so that it evaluates by kernel reduction. -/
def strip (s : String) : String :=
  ⟨((s.data.dropWhile Char.isWhitespace).reverse.dropWhile Char.isWhitespace).reverse⟩

/-- Python `str.lower()` (for the ASCII text this pipeline compares). -/
def lower (s : String) : String :=
  ⟨s.data.map Char.toLower⟩

/-- JSON values: the shapes pydantic validation distinguishes. -/
inductive Json where
  | null : Json
  | str : String → Json
  | num : Int → Json
  | bool : Bool → Json
  | arr : List Json → Json
  | obj : List (String × Json) → Json

/-- Field lookup in a JSON object; `none` when the value is not an object or
the key is absent. -/
def Json.getField (j : Json) (k : String) : Option Json :=
  match j with
  | .obj kvs => kvs.lookup k
  | _ => none

/-- Read a required string field (pydantic `str`): present and a string,
anything else is a validation error. -/
def Json.strField (j : Json) (k : String) : Option String :=
  match j.getField k with
  | some (.str s) => some s
  | _ => none

/-- Read a JSON value as a nullable string (pydantic `Optional[str]` value
check): `null` becomes `none`, a string becomes `some`, anything else is a
validation error. -/
def readNullableStr : Json → Option (Option String)
  | .null => some none
  | .str s => some (some s)
  | _ => none

/-- Read a JSON value as a string (element check for pydantic `List[str]`). -/
def readStr : Json → Option String
  | .str s => some s
  | _ => none

/-- Elementwise validation of a JSON list: every element must validate
(pydantic list validation). -/
def validateList {α : Type} (f : Json → Option α) : List Json → Option (List α)
  | [] => some []
  | j :: js =>
    match f j with
    | none => none
    | some a =>
      match validateList f js with
      | none => none
      | some as => some (a :: as)

/-! ### Persona schema of `profiler.py` (lines 19-45) -/

namespace Profiler

/-- `PersonaPoint` of profiler.py: `point: str`,
`evidence: List[str]` with default `[]`. -/
structure PersonaPoint where
  point : String
  evidence : List String
deriving DecidableEq

/-- `Demographics` of profiler.py: five `Optional[str]` fields, each with
default `"Unknown"`. -/
structure Demographics where
  age : Option String
  gender : Option String
  location : Option String
  occupation : Option String
  education : Option String
deriving DecidableEq

/-- `Psychographics` of profiler.py: three `Optional[str]` fields, each with
default `"Unknown"`. -/
structure Psychographics where
  mbti_type : Option String
  archetype : Option String
  tech_adoption_tier : Option String
deriving DecidableEq

/-- `UserPersona` of profiler.py: identity, bio, demographics,
psychographics, and six lists of `PersonaPoint`. -/
structure UserPersona where
  username : String
  summary_bio : String
  demographics : Demographics
  psychographics : Psychographics
  interests_and_hobbies : List PersonaPoint
  personality_traits : List PersonaPoint
  communication_style : List PersonaPoint
  values_and_beliefs : List PersonaPoint
  goals_and_motivations : List PersonaPoint
  pain_points_and_frustrations : List PersonaPoint
deriving DecidableEq

/-- Read an `Optional[str]` field that has default `"Unknown"` (profiler.py
`Demographics`/`Psychographics` fields): a missing key takes the default,
`null` and strings are accepted, other shapes fail validation. -/
def optStrFieldDflt (j : Json) (k : String) : Option (Option String) :=
  match j.getField k with
  | none => some (some "Unknown")
  | some v => readNullableStr v

/-- Validation of profiler.py `PersonaPoint`: `point` required string,
`evidence` a list of strings, defaulting to `[]` when absent. -/
def validatePersonaPoint (j : Json) : Option PersonaPoint :=
  match j.strField "point" with
  | none => none
  | some p =>
    match j.getField "evidence" with
    | none => some ⟨p, []⟩
    | some (.arr l) =>
      match validateList readStr l with
      | none => none
      | some ev => some ⟨p, ev⟩
    | some _ => none

/-- Validation of profiler.py `Demographics`. -/
def validateDemographics (j : Json) : Option Demographics :=
  (optStrFieldDflt j "age").bind fun age =>
  (optStrFieldDflt j "gender").bind fun gender =>
  (optStrFieldDflt j "location").bind fun location =>
  (optStrFieldDflt j "occupation").bind fun occupation =>
  (optStrFieldDflt j "education").bind fun education =>
  some ⟨age, gender, location, occupation, education⟩

/-- Validation of profiler.py `Psychographics`. -/
def validatePsychographics (j : Json) : Option Psychographics :=
  (optStrFieldDflt j "mbti_type").bind fun mbti_type =>
  (optStrFieldDflt j "archetype").bind fun archetype =>
  (optStrFieldDflt j "tech_adoption_tier").bind fun tech_adoption_tier =>
  some ⟨mbti_type, archetype, tech_adoption_tier⟩

/-- Read a required `List[PersonaPoint]` field of profiler.py `UserPersona`. -/
def pointsField (j : Json) (k : String) : Option (List PersonaPoint) :=
  match j.getField k with
  | some (.arr l) => validateList validatePersonaPoint l
  | _ => none

/-- `UserPersona.model_validate_json` of profiler.py, on an already parsed
JSON value: every field is required; nested records validate recursively. -/
def model_validate (j : Json) : Option UserPersona :=
  (j.strField "username").bind fun username =>
  (j.strField "summary_bio").bind fun summary_bio =>
  ((j.getField "demographics").bind validateDemographics).bind fun demographics =>
  ((j.getField "psychographics").bind validatePsychographics).bind fun psychographics =>
  (pointsField j "interests_and_hobbies").bind fun interests =>
  (pointsField j "personality_traits").bind fun traits =>
  (pointsField j "communication_style").bind fun comm =>
  (pointsField j "values_and_beliefs").bind fun values =>
  (pointsField j "goals_and_motivations").bind fun goals =>
  (pointsField j "pain_points_and_frustrations").bind fun pains =>
  some ⟨username, summary_bio, demographics, psychographics,
        interests, traits, comm, values, goals, pains⟩

/-- Serialization of an `Option String` pydantic field value. -/
def optStrJson : Option String → Json
  | none => Json.null
  | some s => Json.str s

/-- `model_dump_json` for profiler.py `PersonaPoint`: all fields emitted. -/
def PersonaPoint.toJson (p : PersonaPoint) : Json :=
  .obj [("point", .str p.point), ("evidence", .arr (p.evidence.map Json.str))]

/-- `model_dump_json` for profiler.py `Demographics`: all fields emitted. -/
def Demographics.toJson (d : Demographics) : Json :=
  .obj [("age", optStrJson d.age), ("gender", optStrJson d.gender),
        ("location", optStrJson d.location), ("occupation", optStrJson d.occupation),
        ("education", optStrJson d.education)]

/-- `model_dump_json` for profiler.py `Psychographics`: all fields emitted. -/
def Psychographics.toJson (p : Psychographics) : Json :=
  .obj [("mbti_type", optStrJson p.mbti_type), ("archetype", optStrJson p.archetype),
        ("tech_adoption_tier", optStrJson p.tech_adoption_tier)]

/-- `final_persona.model_dump_json` of profiler.py (run_profiler line 175):
pydantic emits every schema field, including defaulted ones. This is the
shape of the `{username}_deep_persona.json` artifact. -/
def UserPersona.model_dump (p : UserPersona) : Json :=
  .obj [("username", .str p.username),
        ("summary_bio", .str p.summary_bio),
        ("demographics", p.demographics.toJson),
        ("psychographics", p.psychographics.toJson),
        ("interests_and_hobbies", .arr (p.interests_and_hobbies.map PersonaPoint.toJson)),
        ("personality_traits", .arr (p.personality_traits.map PersonaPoint.toJson)),
        ("communication_style", .arr (p.communication_style.map PersonaPoint.toJson)),
        ("values_and_beliefs", .arr (p.values_and_beliefs.map PersonaPoint.toJson)),
        ("goals_and_motivations", .arr (p.goals_and_motivations.map PersonaPoint.toJson)),
        ("pain_points_and_frustrations", .arr (p.pain_points_and_frustrations.map PersonaPoint.toJson))]

/-- The declared field names of profiler.py `UserPersona`, in order. -/
def personaFieldNames : List String :=
  ["username", "summary_bio", "demographics", "psychographics",
   "interests_and_hobbies", "personality_traits", "communication_style",
   "values_and_beliefs", "goals_and_motivations", "pain_points_and_frustrations"]

/-- The declared field names of profiler.py `Demographics`, in order. -/
def demographicsFieldNames : List String :=
  ["age", "gender", "location", "occupation", "education"]

/-- The declared field names of profiler.py `Psychographics`, in order. -/
def psychographicsFieldNames : List String :=
  ["mbti_type", "archetype", "tech_adoption_tier"]

/-- The declared field names of profiler.py `PersonaPoint`, in order. -/
def personaPointFieldNames : List String :=
  ["point", "evidence"]

end Profiler

/-! ### Persona schema of `report.py` (lines 15-41) -/

namespace Report

/-- `PersonaPoint` of report.py: `point: str`, `evidence: List[str]`,
both required (no defaults). -/
structure PersonaPoint where
  point : String
  evidence : List String
deriving DecidableEq

/-- `Demographics` of report.py: five `Optional[str]` fields with no
default, hence required but nullable. -/
structure Demographics where
  age : Option String
  gender : Option String
  location : Option String
  occupation : Option String
  education : Option String
deriving DecidableEq

/-- `Psychographics` of report.py: three `Optional[str]` fields with no
default, hence required but nullable. -/
structure Psychographics where
  mbti_type : Option String
  archetype : Option String
  tech_adoption_tier : Option String
deriving DecidableEq

/-- `UserPersona` of report.py. -/
structure UserPersona where
  username : String
  summary_bio : String
  demographics : Demographics
  psychographics : Psychographics
  interests_and_hobbies : List PersonaPoint
  personality_traits : List PersonaPoint
  communication_style : List PersonaPoint
  values_and_beliefs : List PersonaPoint
  goals_and_motivations : List PersonaPoint
  pain_points_and_frustrations : List PersonaPoint
deriving DecidableEq

/-- Read an `Optional[str]` field with no default (report.py
`Demographics`/`Psychographics` fields): the key must be present; `null`
and strings are accepted. -/
def nullableStrField (j : Json) (k : String) : Option (Option String) :=
  match j.getField k with
  | none => none
  | some v => readNullableStr v

/-- Validation of report.py `PersonaPoint`: both fields required. -/
def validatePersonaPoint (j : Json) : Option PersonaPoint :=
  match j.strField "point" with
  | none => none
  | some p =>
    match j.getField "evidence" with
    | some (.arr l) =>
      match validateList readStr l with
      | none => none
      | some ev => some ⟨p, ev⟩
    | _ => none

/-- Validation of report.py `Demographics`. -/
def validateDemographics (j : Json) : Option Demographics :=
  (nullableStrField j "age").bind fun age =>
  (nullableStrField j "gender").bind fun gender =>
  (nullableStrField j "location").bind fun location =>
  (nullableStrField j "occupation").bind fun occupation =>
  (nullableStrField j "education").bind fun education =>
  some ⟨age, gender, location, occupation, education⟩

/-- Validation of report.py `Psychographics`. -/
def validatePsychographics (j : Json) : Option Psychographics :=
  (nullableStrField j "mbti_type").bind fun mbti_type =>
  (nullableStrField j "archetype").bind fun archetype =>
  (nullableStrField j "tech_adoption_tier").bind fun tech_adoption_tier =>
  some ⟨mbti_type, archetype, tech_adoption_tier⟩

/-- Read a required `List[PersonaPoint]` field of report.py `UserPersona`. -/
def pointsField (j : Json) (k : String) : Option (List PersonaPoint) :=
  match j.getField k with
  | some (.arr l) => validateList validatePersonaPoint l
  | _ => none

/-- `UserPersona(**persona_data)` of report.py `run_report` (line 177):
pydantic validation of the loaded persona artifact against the report-stage
schema. -/
def model_validate (j : Json) : Option UserPersona :=
  (j.strField "username").bind fun username =>
  (j.strField "summary_bio").bind fun summary_bio =>
  ((j.getField "demographics").bind validateDemographics).bind fun demographics =>
  ((j.getField "psychographics").bind validatePsychographics).bind fun psychographics =>
  (pointsField j "interests_and_hobbies").bind fun interests =>
  (pointsField j "personality_traits").bind fun traits =>
  (pointsField j "communication_style").bind fun comm =>
  (pointsField j "values_and_beliefs").bind fun values =>
  (pointsField j "goals_and_motivations").bind fun goals =>
  (pointsField j "pain_points_and_frustrations").bind fun pains =>
  some ⟨username, summary_bio, demographics, psychographics,
        interests, traits, comm, values, goals, pains⟩

/-- The declared field names of report.py `UserPersona`, in order. -/
def personaFieldNames : List String :=
  ["username", "summary_bio", "demographics", "psychographics",
   "interests_and_hobbies", "personality_traits", "communication_style",
   "values_and_beliefs", "goals_and_motivations", "pain_points_and_frustrations"]

/-- The declared field names of report.py `Demographics`, in order. -/
def demographicsFieldNames : List String :=
  ["age", "gender", "location", "occupation", "education"]

/-- The declared field names of report.py `Psychographics`, in order. -/
def psychographicsFieldNames : List String :=
  ["mbti_type", "archetype", "tech_adoption_tier"]

/-- The declared field names of report.py `PersonaPoint`, in order. -/
def personaPointFieldNames : List String :=
  ["point", "evidence"]

end Report

/-! ### `scrapper.py` — source locator construction (lines 35-51) -/

namespace Scrapper

/-- The permalink stored by `scrape_user_data` for every post and comment:
the Reddit base URL is prepended to the praw-relative permalink, producing
an absolute URL in the scraped data file. -/
def scrapedPermalink (permalink : String) : String :=
  "https://www.reddit.com" ++ permalink

end Scrapper

/-! ### `db.py` — `create_vector_database` (lines 10-51) -/

namespace Db

/-- One raw post or comment record from the scraped JSON. Posts carry
`title` and `selftext`; comments carry `body`; an absent text field reads
as `""` via `item.get(..., '')`. `permalink` is read with `item.get`, so it
may be absent (`none`). -/
structure RawItem where
  title : String
  selftext : String
  body : String
  permalink : Option String
deriving DecidableEq

/-- Metadata record stored alongside each vector
(`{"source_url": url, "original_content": content}`, db.py line 29). -/
structure MetaRecord where
  source_url : String
  original_content : String
deriving DecidableEq, Inhabited

/-- The combined text of an item (db.py line 25):
`f"{title}\n\n{selftext}{body}".strip()`. -/
def itemContent (it : RawItem) : String :=
  strip (it.title ++ "\n\n" ++ it.selftext ++ it.body)

/-- The guard `if content and url:` (db.py line 27), with Python
truthiness: the combined text must be non-empty and the permalink must be
present and non-empty. -/
def itemKept (it : RawItem) : Bool :=
  itemContent it != "" &&
    (match it.permalink with
     | some u => u != ""
     | none => false)

/-- The collection loop of db.py lines 24-29: one `(text, metadata)` pair
per kept item, in input order. -/
def collectItems : List RawItem → List (String × MetaRecord)
  | [] => []
  | it :: rest =>
    if itemKept it then
      (itemContent it, ⟨(it.permalink.getD ""), itemContent it⟩) :: collectItems rest
    else
      collectItems rest

/-- Consecutive chunks of size `b` of a list, as produced by
`for i in range(0, len(texts), b): texts[i:i+b]` (db.py lines 34-35).
A zero chunk size returns no chunks (in Python, `range` with step 0
raises, so the `b = 0` row is unreachable for the fixed batch size 100). -/
def chunksOf {α : Type} : Nat → List α → List (List α)
  | _, [] => []
  | 0, _ :: _ => []
  | b + 1, x :: xs => ((x :: xs).take (b + 1)) :: chunksOf (b + 1) ((x :: xs).drop (b + 1))
termination_by _ l => l.length
decreasing_by simp [List.length_drop]; omega

/-- The batched embedding loop of db.py lines 33-41: the embedding
capability `embed` is applied batch by batch (batch size 100) and the
per-batch results are concatenated in order. -/
def batchedEmbeddings {V : Type} (embed : String → V) (texts : List String) : List V :=
  ((chunksOf 100 texts).map (fun batch => batch.map embed)).flatten

end Db

/-! ### `profiler.py` — clustering, insight generation, aggregation -/

namespace Profiler

/-- `NUM_CLUSTERS` (profiler.py line 13). -/
def NUM_CLUSTERS : Nat := 10

/-- `MAX_ITEMS_PER_CLUSTER_FOR_ANALYSIS` (profiler.py line 14). -/
def MAX_ITEMS_PER_CLUSTER_FOR_ANALYSIS : Nat := 50

/-- `REDDIT_BASE_URL` (profiler.py line 15). -/
def REDDIT_BASE_URL : String := "https://www.reddit.com"

/-- `max_clusters_allowed = max(1, num_points // 39)` (run_profiler line 161). -/
def max_clusters_allowed (num_points : Nat) : Nat :=
  max 1 (num_points / 39)

/-- `num_clusters_to_use = min(NUM_CLUSTERS, max_clusters_allowed)`
(run_profiler line 162). -/
def num_clusters_to_use (num_points : Nat) : Nat :=
  min NUM_CLUSTERS (max_clusters_allowed num_points)

/-- `find_clusters_kmeans` (profiler.py lines 61-71), with the kmeans
centroid assignment abstracted as `label : Nat → Nat` (the flattened result
of `kmeans.index.search(vectors, 1)`): index `i` of the vector store goes
into bucket `label i`; the loop over `i` runs in increasing order, and
empty buckets are dropped at the end. -/
def find_clusters_kmeans (ntotal num_clusters : Nat) (label : Nat → Nat) :
    List (List Nat) :=
  ((List.range num_clusters).map
      (fun c => (List.range ntotal).filter (fun i => label i == c))).filter
    (fun cluster => !cluster.isEmpty)

/-- `synthesize_insight` (profiler.py lines 73-83): the chat-completion
capability is abstracted as `llm`, which may fail; on success the stripped
message content is returned, on any exception the function returns `""`. -/
def synthesize_insight (llm : String → Except String String) (prompt : String) :
    String :=
  match llm prompt with
  | .ok content => strip content
  | .error _ => ""

/-- The six keys of `prompt_templates` (profiler.py lines 90-97), in
dictionary insertion order. -/
def prompt_keys : List String :=
  ["interests", "personality", "communication", "values", "goals", "pain_points"]

/-- The insight stoplist checked at profiler.py line 114. -/
def insight_stoplist : List String := ["none", "unknown", "n/a"]

/-- The acceptance test of profiler.py line 114:
`if insight and insight.lower() not in ["none", "unknown", "n/a"]`. -/
def acceptInsight (insight : String) : Bool :=
  insight != "" && !(insight_stoplist.contains (lower insight))

/-- An ASCII single-quote character, written by code point. -/
def squote : String := String.singleton (Char.ofNat 39)

/-- One evidence citation (profiler.py line 109):
`f"'{content[:150].strip()}...' (Source: {REDDIT_BASE_URL}{url})"`. -/
def mkCitation (content url : String) : String :=
  squote ++ strip (content.take 150) ++ "..." ++ squote ++
    " (Source: " ++ REDDIT_BASE_URL ++ url ++ ")"

/-- The per-cluster metadata sample (profiler.py line 102):
`[metadata[idx] for idx in cluster_indices][:MAX_ITEMS_PER_CLUSTER_FOR_ANALYSIS]`.
In the pipeline every cluster index is a valid metadata index, so the
`getD` default is never consulted. -/
def clusterMetadata (metadata : List Db.MetaRecord) (cluster_indices : List Nat) :
    List Db.MetaRecord :=
  (cluster_indices.map (fun idx => metadata.getD idx default)).take
    MAX_ITEMS_PER_CLUSTER_FOR_ANALYSIS

/-- `cluster_texts` (profiler.py line 103): the sampled contents joined
with the `\n---\n` delimiter. -/
def clusterTexts (cluster_metadata : List Db.MetaRecord) : String :=
  String.intercalate "\n---\n" (cluster_metadata.map (fun m => m.original_content))

/-- `cluster_evidence` (profiler.py lines 105-110): one citation per item of
`cluster_metadata[:3]`. -/
def clusterEvidence (cluster_metadata : List Db.MetaRecord) : List String :=
  (cluster_metadata.take 3).map
    (fun item => mkCitation item.original_content item.source_url)

/-- One line of the `{username}_insights_raw.jsonl` log
(profiler.py line 115). -/
structure InsightEntry where
  category : String
  insight : String
  evidence : List String
deriving DecidableEq

/-- The inner loop of `generate_raw_insights` (profiler.py lines 112-117)
for one cluster: for each template key (in order) the synthesized insight
is filtered through `acceptInsight`; accepted ones become log entries.
`promptFor key texts` stands for `prompt_templates[key].format(texts=texts)`,
whose literal template strings are opaque data here. -/
def entriesForCluster (llm : String → Except String String)
    (promptFor : String → String → String) (metadata : List Db.MetaRecord)
    (cluster_indices : List Nat) : List InsightEntry :=
  let cm := clusterMetadata metadata cluster_indices
  let texts := clusterTexts cm
  let ev := clusterEvidence cm
  prompt_keys.filterMap (fun key =>
    let insight := synthesize_insight llm (promptFor key texts)
    if acceptInsight insight then
      some ⟨key, insight, ev⟩
    else
      none)

/-- The entries appended by `generate_raw_insights`
(profiler.py lines 99-117) over all clusters, in append order. -/
def generate_raw_insights (llm : String → Except String String)
    (promptFor : String → String → String) (clusters : List (List Nat))
    (metadata : List Db.MetaRecord) : List InsightEntry :=
  (clusters.map (entriesForCluster llm promptFor metadata)).flatten

/-! #### The insights log file across a run of `generate_raw_insights`

The log file state is `Option (List InsightEntry)`: `none` when the file
is absent, `some l` when it holds the lines `l`. -/

/-- Lines 86-88 of profiler.py: an existing insights file is removed
before the loop, so the log starts absent either way. -/
def insightsLogAfterClear : Option (List InsightEntry) → Option (List InsightEntry)
  | some _ => none
  | none => none

/-- One append (`open(insights_file, "a")` + write, profiler.py
lines 116-117): appending creates the file when absent. -/
def appendEntry (st : Option (List InsightEntry)) (e : InsightEntry) :
    Option (List InsightEntry) :=
  some (st.getD [] ++ [e])

/-- The insights log file contents after a run of `generate_raw_insights`
that appends `entries`, starting from prior file state `prior`. -/
def insightsLogAfterRun (prior : Option (List InsightEntry))
    (entries : List InsightEntry) : Option (List InsightEntry) :=
  entries.foldl appendEntry (insightsLogAfterClear prior)

/-! #### `build_final_persona` (profiler.py lines 119-147) -/

/-- Outcome of a stage call: a normal return value, or an uncaught
exception propagating out of the stage. -/
inductive StageOutcome (α : Type) where
  | ret : α → StageOutcome α
  | exn : StageOutcome α
deriving DecidableEq

/-- The read `[json.loads(line) for line in f]` (profiler.py line 126):
`parse` abstracts `json.loads`, returning `none` when the line is
malformed. A parse failure raises, so no further line is processed and no
list is produced. -/
def readInsightLines {α : Type} (parse : String → Option α) :
    List String → Option (List α)
  | [] => some []
  | line :: rest =>
    match parse line with
    | none => none
    | some v =>
      match readInsightLines parse rest with
      | none => none
      | some vs => some (v :: vs)

/-- `build_final_persona` (profiler.py lines 119-147), paired with the
number of synthesis-capability invocations it makes. The chat completion
plus response extraction is abstracted as `llm` over the parsed raw
insights (the prompt text built from them is opaque data); an `llm` error,
and equally a `model_validate_json` failure, is caught by the
`try/except` and yields `None`. A malformed log line raises outside the
`try`, so the stage itself propagates the exception. -/
def build_final_persona {α : Type} (insights_file_exists : Bool)
    (parse : String → Option α) (lines : List String)
    (llm : List α → Except String Json) :
    StageOutcome (Option UserPersona) × Nat :=
  if !insights_file_exists then
    (.ret none, 0)
  else
    match readInsightLines parse lines with
    | none => (.exn, 0)
    | some raw_insights =>
      match llm raw_insights with
      | .error _ => (.ret none, 1)
      | .ok j => (.ret (model_validate j), 1)

/-- Lines 172-178 of `run_profiler`: the `{username}_deep_persona.json`
artifact is written exactly when `build_final_persona` returned a persona
(`if final_persona:`; a pydantic model instance is truthy). When the stage
raised, `run_profiler` itself propagates and writes nothing. -/
def personaArtifactWritten (result : StageOutcome (Option UserPersona)) : Bool :=
  match result with
  | .ret (some _) => true
  | .ret none => false
  | .exn => false

end Profiler

/-! ### `Output.py` — `load_raw_insights` (lines 49-61) -/

namespace Output

/-- `load_raw_insights` of Output.py on the lines of an existing file:
each line is stripped and parsed; a line that fails to parse is skipped
with a warning and processing continues with the remaining lines. -/
def load_raw_insights {α : Type} (parse : String → Option α) :
    List String → List α
  | [] => []
  | line :: rest =>
    match parse (strip line) with
    | some v => v :: load_raw_insights parse rest
    | none => load_raw_insights parse rest

end Output

/-! ## Theorems -/

/-- The cluster-count bound of `find_clusters_kmeans`: at most
`num_clusters` buckets exist, and dropping empty ones only shrinks the
list. -/
theorem find_clusters_length_le (n k : Nat) (label : Nat → Nat) :
    (Profiler.find_clusters_kmeans n k label).length ≤ k := by
  unfold Profiler.find_clusters_kmeans
  calc (List.filter (fun cluster => !cluster.isEmpty)
          ((List.range k).map
            (fun c => (List.range n).filter (fun i => label i == c)))).length
      ≤ ((List.range k).map
          (fun c => (List.range n).filter (fun i => label i == c))).length :=
        List.length_filter_le _ _
    _ = k := by simp

/-- C1: `run_profiler` clamps the cluster count to
`min(NUM_CLUSTERS, max(1, total_points // 39))` before clustering, the
extractor returns at most that many clusters, and for 120 points with
K = 10 the clamp is 3 and at most 3 non-empty clusters are produced. -/
theorem c1_cluster_count_clamped (num_points : Nat) (label : Nat → Nat) :
    Profiler.num_clusters_to_use num_points
        = min Profiler.NUM_CLUSTERS (max 1 (num_points / 39))
    ∧ (Profiler.find_clusters_kmeans num_points
          (Profiler.num_clusters_to_use num_points) label).length
        ≤ Profiler.num_clusters_to_use num_points
    ∧ Profiler.num_clusters_to_use 120 = 3
    ∧ (Profiler.find_clusters_kmeans 120
          (Profiler.num_clusters_to_use 120) label).length ≤ 3 :=
  ⟨rfl, find_clusters_length_le _ _ _, by decide,
    by
      have h := find_clusters_length_le 120 (Profiler.num_clusters_to_use 120) label
      simpa using h⟩

/-- C2: the clusters returned by `find_clusters_kmeans` are non-empty,
contain only valid vector-store indices (so their union lies in
`[0, ntotal)`), and are pairwise disjoint. -/
theorem c2_cluster_invariants (ntotal k : Nat) (label : Nat → Nat) :
    (∀ cl ∈ Profiler.find_clusters_kmeans ntotal k label, cl ≠ [])
    ∧ (∀ cl ∈ Profiler.find_clusters_kmeans ntotal k label, ∀ i ∈ cl, i < ntotal)
    ∧ (Profiler.find_clusters_kmeans ntotal k label).Pairwise
        (fun a b => ∀ i ∈ a, i ∉ b) := by
  refine ⟨?_, ?_, ?_⟩
  · intro cl hcl
    have hne := (List.mem_filter.mp hcl).2
    intro h
    subst h
    simp at hne
  · intro cl hcl i hi
    have hmem := (List.mem_filter.mp hcl).1
    obtain ⟨c, _, rfl⟩ := List.mem_map.mp hmem
    exact List.mem_range.mp (List.mem_filter.mp hi).1
  · apply List.Pairwise.sublist (List.filter_sublist _)
    rw [List.pairwise_map]
    refine List.Pairwise.imp ?_ (List.pairwise_lt_range k)
    intro c c' hlt i hic hic'
    have h1 : label i == c := (List.mem_filter.mp hic).2
    have h2 : label i == c' := (List.mem_filter.mp hic').2
    have : c = c' := by
      have e1 : label i = c := by simpa using h1
      have e2 : label i = c' := by simpa using h2
      omega
    omega

/-- C2 witness: with 2 points all labelled 0 and one requested cluster,
the single output cluster `[0, 1]` satisfies the invariants at index 0. -/
theorem c2_cluster_invariants_witness : (0 : Nat) < 2 :=
  (c2_cluster_invariants 2 1 (fun _ => 0)).2.1 [0, 1] (by decide) 0 (by decide)

/-- C3: every entry `generate_raw_insights` appends has a non-empty
insight whose lowercase form is not in the stoplist; a rejected synthesis
result for a category produces no entry of that category for that cluster;
and a failed capability call yields `""`, which is rejected. -/
theorem c3_insight_filtering (llm : String → Except String String)
    (promptFor : String → String → String) (clusters : List (List Nat))
    (metadata : List Db.MetaRecord) :
    (∀ e ∈ Profiler.generate_raw_insights llm promptFor clusters metadata,
        e.insight ≠ "" ∧ lower e.insight ∉ Profiler.insight_stoplist)
    ∧ (∀ key cluster_indices,
        Profiler.acceptInsight (Profiler.synthesize_insight llm
            (promptFor key (Profiler.clusterTexts
              (Profiler.clusterMetadata metadata cluster_indices)))) = false →
        ∀ e ∈ Profiler.entriesForCluster llm promptFor metadata cluster_indices,
          e.category ≠ key)
    ∧ (∀ prompt err, llm prompt = Except.error err →
        Profiler.synthesize_insight llm prompt = ""
        ∧ Profiler.acceptInsight "" = false) := by
  refine ⟨?_, ?_, ?_⟩
  · intro e he
    rw [Profiler.generate_raw_insights, List.mem_flatten] at he
    obtain ⟨l, hl, hel⟩ := he
    obtain ⟨ci, _, rfl⟩ := List.mem_map.mp hl
    rw [Profiler.entriesForCluster, List.mem_filterMap] at hel
    obtain ⟨key, _, hkey⟩ := hel
    simp only at hkey
    by_cases hacc : Profiler.acceptInsight (Profiler.synthesize_insight llm
        (promptFor key (Profiler.clusterTexts (Profiler.clusterMetadata metadata ci))))
    · rw [if_pos hacc] at hkey
      cases hkey
      have h : Profiler.synthesize_insight llm
            (promptFor key (Profiler.clusterTexts (Profiler.clusterMetadata metadata ci))) ≠ ""
          ∧ lower (Profiler.synthesize_insight llm
            (promptFor key (Profiler.clusterTexts (Profiler.clusterMetadata metadata ci))))
              ∉ Profiler.insight_stoplist := by
        simpa [Profiler.acceptInsight, List.elem_iff] using hacc
      exact ⟨h.1, h.2⟩
    · rw [if_neg hacc] at hkey
      cases hkey
  · intro key ci hrej e he hcat
    rw [Profiler.entriesForCluster, List.mem_filterMap] at he
    obtain ⟨key', _, hkey'⟩ := he
    simp only at hkey'
    by_cases hacc : Profiler.acceptInsight (Profiler.synthesize_insight llm
        (promptFor key' (Profiler.clusterTexts (Profiler.clusterMetadata metadata ci))))
    · rw [if_pos hacc] at hkey'
      cases hkey'
      have hk : key' = key := hcat
      rw [hk, hrej] at hacc
      exact Bool.false_ne_true hacc
    · rw [if_neg hacc] at hkey'
      cases hkey'
  · intro prompt err herr
    constructor
    · rw [Profiler.synthesize_insight, herr]
    · decide

/-- C3 witness: with a capability that answers every prompt with
`"Loves hiking"`, the single cluster `[0]` yields an accepted entry whose
text passes the stoplist filter, and an erroring capability yields `""`. -/
theorem c3_insight_filtering_witness :
    (("Loves hiking" : String) ≠ ""
      ∧ lower "Loves hiking" ∉ Profiler.insight_stoplist)
    ∧ (Profiler.synthesize_insight (fun _ => Except.error "boom") "p" = ""
      ∧ Profiler.acceptInsight "" = false) := by
  constructor
  · exact (c3_insight_filtering (fun _ => Except.ok "Loves hiking") (fun _ _ => "")
      [[0]] [⟨"/r/x/", "some text"⟩]).1
      ⟨"interests", "Loves hiking", [Profiler.mkCitation "some text" "/r/x/"]⟩
      (by decide)
  · exact (c3_insight_filtering (fun _ => Except.error "boom") (fun _ _ => "")
      [] []).2.2 "p" "boom" rfl

/-- The collection loop of db.py keeps exactly the items passing the
`if content and url:` guard, in order, pairing each with its metadata
record. -/
theorem collectItems_eq (items : List Db.RawItem) :
    Db.collectItems items
      = (items.filter Db.itemKept).map
          (fun it => (Db.itemContent it,
            (⟨it.permalink.getD "", Db.itemContent it⟩ : Db.MetaRecord))) := by
  induction items with
  | nil => rfl
  | cons it rest ih =>
    by_cases h : Db.itemKept it <;>
      simp [Db.collectItems, List.filter_cons, h, ih]

/-- Flattening the chunks of a list gives back the list (for a positive
chunk size). -/
theorem chunksOf_flatten {α : Type} (b : Nat) (l : List α) :
    (Db.chunksOf (b + 1) l).flatten = l := by
  cases l with
  | nil => simp [Db.chunksOf]
  | cons x xs =>
    have ih := chunksOf_flatten b ((x :: xs).drop (b + 1))
    simp only [Db.chunksOf, List.flatten_cons]
    rw [ih, List.take_append_drop]
termination_by l.length
decreasing_by simp [List.length_drop]; omega

/-- Batching the embedding calls is equivalent to embedding the texts one
at a time, in order. -/
theorem batchedEmbeddings_eq_map {V : Type} (embed : String → V)
    (texts : List String) :
    Db.batchedEmbeddings embed texts = texts.map embed := by
  rw [Db.batchedEmbeddings, ← List.map_flatten,
    show (100 : Nat) = 99 + 1 from rfl, chunksOf_flatten]

/-- C5: `create_vector_database` produces one embedding per item whose
combined text is non-empty and whose permalink is present (and non-empty,
by Python truthiness), in input order, and the batch-of-100 embedding loop
returns exactly the one-at-a-time embeddings of those texts. -/
theorem c5_embedding_stage {V : Type} (embed : String → V)
    (items : List Db.RawItem) :
    Db.batchedEmbeddings embed ((Db.collectItems items).map Prod.fst)
        = ((Db.collectItems items).map Prod.fst).map embed
    ∧ Db.collectItems items
        = (items.filter Db.itemKept).map
            (fun it => (Db.itemContent it,
              (⟨it.permalink.getD "", Db.itemContent it⟩ : Db.MetaRecord)))
    ∧ (Db.batchedEmbeddings embed ((Db.collectItems items).map Prod.fst)).length
        = (items.filter Db.itemKept).length := by
  refine ⟨batchedEmbeddings_eq_map _ _, collectItems_eq items, ?_⟩
  rw [batchedEmbeddings_eq_map, collectItems_eq]
  simp

/-- C4: when the final synthesis capability errors, or when its JSON
output fails validation against the profiler persona schema, the
aggregator returns `None` and `run_profiler` does not write the persona
artifact. -/
theorem c4_aggregator_failure {α : Type} (insights_file_exists : Bool)
    (parse : String → Option α) (lines : List String)
    (llm : List α → Except String Json) (raw : List α)
    (hread : Profiler.readInsightLines parse lines = some raw)
    (hfail : (∃ e, llm raw = Except.error e)
      ∨ (∃ j, llm raw = Except.ok j ∧ Profiler.model_validate j = none)) :
    (Profiler.build_final_persona insights_file_exists parse lines llm).1
        = Profiler.StageOutcome.ret none
    ∧ Profiler.personaArtifactWritten
        (Profiler.build_final_persona insights_file_exists parse lines llm).1
          = false := by
  cases insights_file_exists with
  | false => exact ⟨rfl, rfl⟩
  | true =>
    rcases hfail with ⟨e, he⟩ | ⟨j, hj, hv⟩
    · simp [Profiler.build_final_persona, Profiler.personaArtifactWritten,
        hread, he]
    · simp [Profiler.build_final_persona, Profiler.personaArtifactWritten,
        hread, hj, hv]

/-- C4 witness: an empty insights log reads as `some []`, and a synthesis
result `{}` is missing every required field, so validation fails, the
aggregator returns `None`, and no artifact is written. -/
theorem c4_aggregator_failure_witness :
    (Profiler.build_final_persona true (fun _ => some 0) []
        (fun _ => Except.ok (Json.obj []))).1
      = Profiler.StageOutcome.ret none
    ∧ Profiler.personaArtifactWritten
        (Profiler.build_final_persona true (fun _ => some 0) []
          (fun _ => Except.ok (Json.obj []))).1 = false :=
  c4_aggregator_failure true (fun _ => some 0) []
    (fun _ => Except.ok (Json.obj [])) [] rfl
    (Or.inr ⟨Json.obj [], rfl, rfl⟩)

/-- C9: when the raw insights log file is absent, `build_final_persona`
returns `None` immediately and performs zero synthesis-capability calls,
whatever the log contents and capability would have been. -/
theorem c9_missing_log_returns_none {α : Type} (parse : String → Option α)
    (lines : List String) (llm : List α → Except String Json) :
    Profiler.build_final_persona false parse lines llm
      = (Profiler.StageOutcome.ret none, 0) := rfl

/-- C6 counterexample: on a log whose second line is malformed, the
pipeline aggregator `build_final_persona` raises an uncaught parse error
(outcome `exn`, zero capability calls) instead of aggregating the
parseable first line, while Output.py's `load_raw_insights` does skip the
bad line and keeps the good one. -/
theorem c6_aggregator_aborts_counterexample :
    Profiler.build_final_persona true
        (fun s => if s = "bad" then none else some s) ["good", "bad"]
        (fun _ => Except.ok (Json.obj []))
      = (Profiler.StageOutcome.exn, 0)
    ∧ Output.load_raw_insights
        (fun s => if s = "bad" then none else some s) ["good", "bad"]
      = ["good"] := by
  exact ⟨rfl, rfl⟩

/-- C6 amended: Output.py's `load_raw_insights` skips each malformed line
and returns exactly the parseable records in order, while the pipeline
aggregator's strict read raises exactly when some line fails to parse. -/
theorem c6_amended_loader_skips {α : Type} (parse : String → Option α)
    (lines : List String) :
    Output.load_raw_insights parse lines
        = lines.filterMap (fun l => parse (strip l))
    ∧ (Profiler.readInsightLines parse lines = none
        ↔ ∃ l ∈ lines, parse l = none) := by
  constructor
  · induction lines with
    | nil => rfl
    | cons l rest ih =>
      cases h : parse (strip l) <;>
        simp [Output.load_raw_insights, List.filterMap_cons, h, ih]
  · induction lines with
    | nil => simp [Profiler.readInsightLines]
    | cons l rest ih =>
      cases h : parse l with
      | none => simp [Profiler.readInsightLines, h]
      | some v =>
        cases h2 : Profiler.readInsightLines parse rest with
        | none =>
          simp only [Profiler.readInsightLines, h, h2]
          simp only [true_iff]
          obtain ⟨l', hl', hp⟩ := ih.mp h2
          exact ⟨l', List.mem_cons_of_mem _ hl', hp⟩
        | some vs =>
          simp only [Profiler.readInsightLines, h, h2]
          constructor
          · intro hfalse
            cases hfalse
          · rintro ⟨l', hl', hp⟩
            rcases List.mem_cons.mp hl' with rfl | hl'
            · rw [h] at hp
              cases hp
            · have : Profiler.readInsightLines parse rest = none :=
                ih.mpr ⟨l', hl', hp⟩
              rw [this] at h2
              cases h2

/-- C7 counterexample: `generate_raw_insights` deletes an existing
insights log before writing, so a record from a previous run does not
remain — here a re-run appending one new entry leaves a log holding only
that entry. -/
theorem c7_prior_log_cleared_counterexample :
    Profiler.insightsLogAfterRun
        (some [⟨"interests", "Old insight", []⟩])
        [⟨"values", "New insight", []⟩]
      = some [⟨"values", "New insight", []⟩]
    ∧ (⟨"interests", "Old insight", []⟩ : Profiler.InsightEntry)
        ∉ [(⟨"values", "New insight", []⟩ : Profiler.InsightEntry)] := by
  exact ⟨rfl, by decide⟩

/-- Folding appends over an existing log extends it in order. -/
theorem foldl_appendEntry (acc : List Profiler.InsightEntry)
    (l : List Profiler.InsightEntry) :
    l.foldl Profiler.appendEntry (some acc) = some (acc ++ l) := by
  induction l generalizing acc with
  | nil => simp
  | cons e rest ih =>
    simp [Profiler.appendEntry, ih]

/-- C7 amended: the log contents after `generate_raw_insights` do not
depend on the prior log at all (lines 86-88 delete it); the final log is
exactly the entries of this run, appended incrementally, and stays absent
when no entry is accepted. -/
theorem c7_amended_log_replaced (prior : Option (List Profiler.InsightEntry))
    (entries : List Profiler.InsightEntry) :
    Profiler.insightsLogAfterRun prior entries
        = Profiler.insightsLogAfterRun none entries
    ∧ (entries ≠ [] → Profiler.insightsLogAfterRun prior entries = some entries)
    ∧ (entries = [] → Profiler.insightsLogAfterRun prior entries = none) := by
  have hclear : Profiler.insightsLogAfterClear prior = none := by
    cases prior <;> rfl
  refine ⟨?_, ?_, ?_⟩
  · rw [Profiler.insightsLogAfterRun, Profiler.insightsLogAfterRun, hclear]
    rfl
  · intro hne
    rw [Profiler.insightsLogAfterRun, hclear]
    cases entries with
    | nil => exact absurd rfl hne
    | cons e rest =>
      rw [List.foldl_cons]
      have : Profiler.appendEntry none e = some [e] := rfl
      rw [this, foldl_appendEntry]
      simp
  · intro he
    subst he
    rw [Profiler.insightsLogAfterRun, hclear]
    rfl

/-- C7 amended witness: re-running over a log holding an old entry and
appending one new entry yields a log holding exactly the new entry. -/
theorem c7_amended_log_replaced_witness :
    Profiler.insightsLogAfterRun (some [⟨"interests", "Old insight", []⟩])
        [⟨"values", "New insight", []⟩]
      = some [⟨"values", "New insight", []⟩] :=
  (c7_amended_log_replaced (some [⟨"interests", "Old insight", []⟩])
    [⟨"values", "New insight", []⟩]).2.1 (by decide)

/-- C8: the evidence citations of a cluster are built from its first
`min(3, cluster size)` members with the content truncated to 150
characters; but the source URL in each citation is `REDDIT_BASE_URL`
prepended to the stored `source_url`, which the scraper already made
absolute — so on pipeline data the citation carries a doubled
`https://www.reddit.com` prefix, not the member's public source URL. -/
theorem c8_citation_doubled_base_url :
    (∀ (metadata : List Db.MetaRecord) (cluster_indices : List Nat),
        (Profiler.clusterEvidence
            (Profiler.clusterMetadata metadata cluster_indices)).length
          = min 3 cluster_indices.length)
    ∧ Profiler.mkCitation "I love hiking"
        (Scrapper.scrapedPermalink "/r/hiking/comments/abc/")
      = Profiler.squote ++ "I love hiking..." ++ Profiler.squote ++
          " (Source: https://www.reddit.comhttps://www.reddit.com/r/hiking/comments/abc/)" := by
  constructor
  · intro metadata ci
    simp only [Profiler.clusterEvidence, Profiler.clusterMetadata,
      Profiler.MAX_ITEMS_PER_CLUSTER_FOR_ANALYSIS, List.length_map,
      List.length_take]
    omega
  · rfl

/-- Elementwise string validation accepts any serialized string list. -/
theorem validateList_readStr_map (l : List String) :
    validateList readStr (l.map Json.str) = some l := by
  induction l with
  | nil => rfl
  | cons s rest ih => simp [validateList, readStr, ih]

/-- The report-stage `PersonaPoint` validator accepts every point the
profiler stage serializes. -/
theorem report_point_accepts_dump (pt : Profiler.PersonaPoint) :
    Report.validatePersonaPoint (Profiler.PersonaPoint.toJson pt)
      = some ⟨pt.point, pt.evidence⟩ := by
  simp [Report.validatePersonaPoint, Profiler.PersonaPoint.toJson,
    Json.strField, Json.getField, List.lookup, validateList_readStr_map]

/-- The report-stage validator accepts every serialized point list. -/
theorem report_points_accept_dump (pts : List Profiler.PersonaPoint) :
    validateList Report.validatePersonaPoint (pts.map Profiler.PersonaPoint.toJson)
      = some (pts.map (fun pt => ⟨pt.point, pt.evidence⟩)) := by
  induction pts with
  | nil => rfl
  | cons pt rest ih => simp [validateList, report_point_accepts_dump, ih]

/-- The report-stage `Demographics` validator accepts every demographics
record the profiler stage serializes. -/
theorem report_demographics_accept_dump (d : Profiler.Demographics) :
    Report.validateDemographics (Profiler.Demographics.toJson d)
      = some ⟨d.age, d.gender, d.location, d.occupation, d.education⟩ := by
  obtain ⟨a, g, l, o, e⟩ := d
  cases a <;> cases g <;> cases l <;> cases o <;> cases e <;> rfl

/-- The report-stage `Psychographics` validator accepts every
psychographics record the profiler stage serializes. -/
theorem report_psychographics_accept_dump (p : Profiler.Psychographics) :
    Report.validatePsychographics (Profiler.Psychographics.toJson p)
      = some ⟨p.mbti_type, p.archetype, p.tech_adoption_tier⟩ := by
  obtain ⟨m, a, t⟩ := p
  cases m <;> cases a <;> cases t <;> rfl

/-- C10: every persona the profiler stage validates and serializes also
validates against the report-stage schema (so `run_report` accepts every
`{username}_deep_persona.json` artifact `run_profiler` writes), and the
two schema declarations agree on every field name. -/
theorem c10_report_accepts_profiler_artifact (p : Profiler.UserPersona) :
    Report.model_validate (Profiler.UserPersona.model_dump p)
      = some ⟨p.username, p.summary_bio,
          ⟨p.demographics.age, p.demographics.gender, p.demographics.location,
            p.demographics.occupation, p.demographics.education⟩,
          ⟨p.psychographics.mbti_type, p.psychographics.archetype,
            p.psychographics.tech_adoption_tier⟩,
          p.interests_and_hobbies.map (fun pt => ⟨pt.point, pt.evidence⟩),
          p.personality_traits.map (fun pt => ⟨pt.point, pt.evidence⟩),
          p.communication_style.map (fun pt => ⟨pt.point, pt.evidence⟩),
          p.values_and_beliefs.map (fun pt => ⟨pt.point, pt.evidence⟩),
          p.goals_and_motivations.map (fun pt => ⟨pt.point, pt.evidence⟩),
          p.pain_points_and_frustrations.map (fun pt => ⟨pt.point, pt.evidence⟩)⟩
    ∧ Profiler.personaFieldNames = Report.personaFieldNames
    ∧ Profiler.demographicsFieldNames = Report.demographicsFieldNames
    ∧ Profiler.psychographicsFieldNames = Report.psychographicsFieldNames
    ∧ Profiler.personaPointFieldNames = Report.personaPointFieldNames := by
  refine ⟨?_, rfl, rfl, rfl, rfl⟩
  simp [Report.model_validate, Profiler.UserPersona.model_dump, Report.pointsField,
    Json.strField, Json.getField, List.lookup, report_demographics_accept_dump,
    report_psychographics_accept_dump, report_points_accept_dump]

end BeyondChats
